import Mathlib

/-!
Shallow embedding of `ucsm_apis/admin/auth.py`, the authentication-management
façade of the `ucsm_apis` repository, together with a state-passing model of
the external session handle it drives.

The Python module is CRUD glue: each façade function resolves a distinguished
name (dn) inside the remote object tree, builds or mutates a managed object
(MO), and submits it through the injected `UcsHandle`.  We embed managed
objects as records carrying a class id, a dn and an association list of
string properties (most recent binding first, as Python attribute update is
modelled by shadowing), and the handle as the remote store (a list of MOs)
plus a log of the add/set/remove/commit operations issued on it.  Errors are
values of `UcsOperationError`, and every façade function returns its result
together with the (possibly updated) handle.
-/

/-- Models `ucsmsdk.ucsexception.UcsOperationError`: the single error kind of
the façade, carrying the failing operation's name and a message. -/
structure UcsOperationError where
  caller : String
  message : String
  deriving Repr, DecidableEq

/-- Modelled from the spec: a managed object (record) of the external SDK.
It is a typed, path-addressed configuration entity: a class id, a
distinguished name (dn), and an open-ended property map, kept as an
association list whose most recent binding comes first. -/
structure MO where
  classId : String
  dn : String
  props : List (String × String)
  deriving Repr, DecidableEq

/-- Reads a property of a managed object: the most recent binding wins;
an unset property reads as `none` (the record's default). -/
def MO.getProp (mo : MO) (k : String) : Option String :=
  (mo.props.find? (fun p => p.1 == k)).map (fun p => p.2)

/-- Sets a property of a managed object (Python attribute assignment,
modelled by shadowing the previous binding). -/
def MO.setProp (mo : MO) (k v : String) : MO :=
  { mo with props := (k, v) :: mo.props }

/-- Modelled from the spec: the external SDK's `ManagedObject.set_prop_multiple`.
Sets each listed property in order, but only when a value is provided: an
absent (`none`) value is skipped, leaving the record's current value
untouched. -/
def MO.set_prop_multiple (mo : MO) (kvs : List (String × Option String)) : MO :=
  kvs.foldl (fun m kv =>
    match kv.2 with
    | some v => m.setProp kv.1 v
    | none => m) mo

/-- Modelled from the spec: the external SDK's `ManagedObject.check_prop_match`.
True exactly when every listed expected property equals the record's
corresponding field. -/
def MO.check_prop_match (mo : MO) (kvs : List (String × String)) : Bool :=
  kvs.all (fun kv => mo.getProp kv.1 == some kv.2)

/-- Lifts a keyword-argument map whose values are all provided (the Python
`**kwargs` of the façade) into the optional-value form taken by
`MO.set_prop_multiple`. -/
def toProvided (kvs : List (String × String)) : List (String × Option String) :=
  kvs.map (fun kv => (kv.1, some kv.2))

/-- The value that a `MO.set_prop_multiple` pass over `kvs` leaves for key `k`:
the last provided (non-`none`) binding of `k`, if any. -/
def lastProvided (kvs : List (String × Option String)) (k : String) : Option String :=
  match kvs with
  | [] => none
  | kv :: rest =>
    match lastProvided rest k with
    | some v => some v
    | none => if kv.1 == k then kv.2 else none

/-- The effective value of key `k` in a keyword-argument map: the last
binding wins (Python keyword dictionaries hold one binding per key, so this
is simply its lookup). -/
def lookupLast (kvs : List (String × String)) (k : String) : Option String :=
  lastProvided (toProvided kvs) k

/-- First-some choice on optional property values. -/
def orElseProp (a b : Option String) : Option String :=
  match a with
  | some v => some v
  | none => b

/-- Modelled from the spec: one entry of the session-handle operation log,
mirroring the handle contract `add_record` / `update_record` /
`remove_record` / `commit`. -/
inductive HandleOp where
  | add (mo : MO) (modifyPresent : Bool)
  | set (mo : MO)
  | remove (mo : MO)
  | commit
  deriving Repr, DecidableEq

/-- Modelled from the spec: the session handle.  `remote` is the remote
object store (the sole source of truth, addressed by dn) and `log` records
every add/update/remove/commit issued through the handle. -/
structure Handle where
  remote : List MO
  log : List HandleOp
  deriving Repr, DecidableEq

/-- Replaces the record stored at the dn of `mo` by `mo`, or appends `mo`
when no record with that dn is present (upsert by path). -/
def upsertByDn : List MO → MO → List MO
  | [], mo => [mo]
  | m :: ms, mo => if m.dn == mo.dn then mo :: ms else m :: upsertByDn ms mo

/-- Modelled from the spec: `UcsHandle.query_dn`, a read-only lookup of the
record at a dn. -/
def Handle.query_dn (h : Handle) (dn : String) : Option MO :=
  h.remote.find? (fun m => m.dn == dn)

/-- Modelled from the spec: `UcsHandle.add_mo`.  With `modifyPresent` set
(the only way the façade calls it) an existing record at the same dn is
overwritten rather than erroring; without it, an existing record is an
error. -/
def Handle.add_mo (h : Handle) (mo : MO) (modifyPresent : Bool) :
    Except UcsOperationError Handle :=
  if h.remote.any (fun m => m.dn == mo.dn) && !modifyPresent then
    Except.error ⟨"add_mo", "Object already exists at " ++ mo.dn⟩
  else
    Except.ok { remote := upsertByDn h.remote mo,
                log := h.log ++ [HandleOp.add mo modifyPresent] }

/-- Modelled from the spec: `UcsHandle.set_mo`, submitting a record as an
update.  The targets the façade updates live at fixed paths where creation
and modification coincide, so this is an upsert by path. -/
def Handle.set_mo (h : Handle) (mo : MO) : Handle :=
  { remote := upsertByDn h.remote mo, log := h.log ++ [HandleOp.set mo] }

/-- Modelled from the spec: `UcsHandle.remove_mo`, removing the record at
the dn of `mo`. -/
def Handle.remove_mo (h : Handle) (mo : MO) : Handle :=
  { remote := h.remote.filter (fun m => !(m.dn == mo.dn)),
    log := h.log ++ [HandleOp.remove mo] }

/-- Modelled from the spec: `UcsHandle.commit`, durably applying the staged
actions; in this model the mutators apply directly and `commit` marks the
round trip in the log. -/
def Handle.commit (h : Handle) : Handle :=
  { h with log := h.log ++ [HandleOp.commit] }

/-- The fixed auth-realm root path of `auth.py`. -/
def _auth_realm_dn : String := "sys/auth-realm"

/-- Modelled from the spec: the external SDK constructor
`ucsmsdk.mometa.aaa.AaaDomain`.  Its relative name is `domain-<name>` under
the parent dn, and the constructor sets the provided properties. -/
def AaaDomain (parent_mo_or_dn name refresh_period session_timeout : String)
    (descr : Option String) : MO :=
  (MO.mk "AaaDomain" (parent_mo_or_dn ++ "/domain-" ++ name)
      [("name", name)]).set_prop_multiple
    [("refresh_period", some refresh_period),
     ("session_timeout", some session_timeout),
     ("descr", descr)]

/-- Modelled from the spec: the external SDK constructor
`ucsmsdk.mometa.aaa.AaaDomainAuth`, the realm binding child of an auth
domain (relative name `domain-auth`). -/
def AaaDomainAuth (parent_dn realm use2_factor : String)
    (provider_group name descr : Option String) : MO :=
  (MO.mk "AaaDomainAuth" (parent_dn ++ "/domain-auth") []).set_prop_multiple
    [("realm", some realm),
     ("use2_factor", some use2_factor),
     ("provider_group", provider_group),
     ("name", name),
     ("descr", descr)]

/-- Modelled from the spec: the external SDK constructor
`ucsmsdk.mometa.aaa.AaaAuthRealm` (relative name `auth-realm`). -/
def AaaAuthRealm (parent_mo_or_dn : String) : MO :=
  MO.mk "AaaAuthRealm" (parent_mo_or_dn ++ "/auth-realm") []

/-- Modelled from the spec: the external SDK constructor
`ucsmsdk.mometa.aaa.AaaDefaultAuth` (relative name `default-auth`). -/
def AaaDefaultAuth (parent_mo_or_dn : String) : MO :=
  MO.mk "AaaDefaultAuth" (parent_mo_or_dn ++ "/default-auth") []

/-- Modelled from the spec: the external SDK constructor
`ucsmsdk.mometa.aaa.AaaConsoleAuth` (relative name `console-auth`). -/
def AaaConsoleAuth (parent_mo_or_dn : String) : MO :=
  MO.mk "AaaConsoleAuth" (parent_mo_or_dn ++ "/console-auth") []

/-- Embeds `auth_domain_get` of `auth.py`: resolves the deterministic dn,
queries it, and raises `UcsOperationError` naming the caller when no record
exists.  The handle is returned unchanged (the lookup is read-only). -/
def auth_domain_get (h : Handle) (name caller : String) :
    (Except UcsOperationError MO) × Handle :=
  let dn := _auth_realm_dn ++ "/domain-" ++ name
  (match h.query_dn dn with
   | none =>
     Except.error ⟨caller, "Auth Domain \x27" ++ dn ++ "\x27 does not exist"⟩
   | some mo => Except.ok mo, h)

/-- Embeds `auth_domain_create` of `auth.py`: builds an `AaaDomain` under the
auth-realm root, overlays the keyword arguments, adds it with
`modify_present` set, commits, and returns the record. -/
def auth_domain_create (h : Handle) (name refresh_period session_timeout : String)
    (descr : Option String) (kwargs : List (String × String)) :
    (Except UcsOperationError MO) × Handle :=
  let mo := AaaDomain _auth_realm_dn name refresh_period session_timeout descr
  let mo := mo.set_prop_multiple (toProvided kwargs)
  match h.add_mo mo true with
  | Except.error e => (Except.error e, h)
  | Except.ok h2 => (Except.ok mo, h2.commit)

/-- Embeds `auth_domain_exists` of `auth.py`: wraps `auth_domain_get`,
turning its not-found error into `(false, none)`, and otherwise compares the
expected properties against the fetched record. -/
def auth_domain_exists (h : Handle) (name : String)
    (kwargs : List (String × String)) : (Bool × Option MO) × Handle :=
  let r := auth_domain_get h name "auth_domain_exists"
  match r.1 with
  | Except.error _ => ((false, none), r.2)
  | Except.ok mo =>
    let mo_exists := mo.check_prop_match kwargs
    ((mo_exists, if mo_exists then some mo else none), r.2)

/-- Embeds `auth_domain_modify` of `auth.py`: fetches the existing record
(raising if absent), applies the keyword arguments onto it, submits it as an
update, commits, and returns it. -/
def auth_domain_modify (h : Handle) (name : String)
    (kwargs : List (String × String)) :
    (Except UcsOperationError MO) × Handle :=
  let r := auth_domain_get h name "auth_domain_modify"
  match r.1 with
  | Except.error e => (Except.error e, r.2)
  | Except.ok mo =>
    let mo2 := mo.set_prop_multiple (toProvided kwargs)
    (Except.ok mo2, (r.2.set_mo mo2).commit)

/-- Embeds `auth_domain_delete` of `auth.py`: fetches the existing record
(raising if absent), removes it, and commits. -/
def auth_domain_delete (h : Handle) (name : String) :
    (Except UcsOperationError Unit) × Handle :=
  let r := auth_domain_get h name "auth_domain_delete"
  match r.1 with
  | Except.error e => (Except.error e, r.2)
  | Except.ok mo => (Except.ok (), (r.2.remove_mo mo).commit)

/-- Embeds `auth_domain_realm_configure` of `auth.py`: resolves the parent
auth domain (raising if absent), maps the two-factor boolean to the
enumerated pair indexed as in the source, builds the `AaaDomainAuth` child,
overlays the keyword arguments, submits it as an update, and commits. -/
def auth_domain_realm_configure (h : Handle) (domain_name realm : String)
    (use2_factor : Bool) (provider_group name descr : Option String)
    (kwargs : List (String × String)) :
    (Except UcsOperationError MO) × Handle :=
  let r := auth_domain_get h domain_name "auth_domain_realm_configure"
  match r.1 with
  | Except.error e => (Except.error e, r.2)
  | Except.ok obj =>
    let use2 := if use2_factor then "yes" else "no"
    let mo := AaaDomainAuth obj.dn realm use2 provider_group name descr
    let mo := mo.set_prop_multiple (toProvided kwargs)
    (Except.ok mo, (r.2.set_mo mo).commit)

/-- Embeds `native_auth_configure` of `auth.py`: builds a fresh
`AaaAuthRealm` under `sys` with no prior lookup, sets the four named fields
only when provided, overlays the keyword arguments, submits as update, and
commits. -/
def native_auth_configure (h : Handle)
    (def_role_policy def_login con_login descr : Option String)
    (kwargs : List (String × String)) : MO × Handle :=
  let mo := AaaAuthRealm "sys"
  let args : List (String × Option String) :=
    [("def_role_policy", def_role_policy),
     ("def_login", def_login),
     ("con_login", con_login),
     ("descr", descr)]
  let mo := mo.set_prop_multiple args
  let mo := mo.set_prop_multiple (toProvided kwargs)
  (mo, (h.set_mo mo).commit)

/-- Embeds `native_auth_default` of `auth.py`: the same upsert-at-fixed-path
pattern for the `AaaDefaultAuth` child of the auth-realm root. -/
def native_auth_default (h : Handle)
    (realm session_timeout refresh_period provider_group name descr :
      Option String)
    (kwargs : List (String × String)) : MO × Handle :=
  let mo := AaaDefaultAuth _auth_realm_dn
  let args : List (String × Option String) :=
    [("realm", realm),
     ("session_timeout", session_timeout),
     ("refresh_period", refresh_period),
     ("provider_group", provider_group),
     ("name", name),
     ("descr", descr)]
  let mo := mo.set_prop_multiple args
  let mo := mo.set_prop_multiple (toProvided kwargs)
  (mo, (h.set_mo mo).commit)

/-- Embeds `native_auth_console` of `auth.py`: the same upsert-at-fixed-path
pattern for the `AaaConsoleAuth` child of the auth-realm root. -/
def native_auth_console (h : Handle)
    (realm provider_group name descr : Option String)
    (kwargs : List (String × String)) : MO × Handle :=
  let mo := AaaConsoleAuth _auth_realm_dn
  let args : List (String × Option String) :=
    [("realm", realm),
     ("provider_group", provider_group),
     ("name", name),
     ("descr", descr)]
  let mo := mo.set_prop_multiple args
  let mo := mo.set_prop_multiple (toProvided kwargs)
  (mo, (h.set_mo mo).commit)

/-! Helper lemmas about property maps and the remote store. -/

theorem domainDn_eq (name : String) :
    _auth_realm_dn ++ "/domain-" ++ name = "sys/auth-realm/domain-" ++ name := rfl

theorem getProp_setProp_self (mo : MO) (k v : String) :
    (mo.setProp k v).getProp k = some v := by
  simp [MO.getProp, MO.setProp]

theorem getProp_setProp_ne (mo : MO) (k2 v k : String) (hne : k2 ≠ k) :
    (mo.setProp k2 v).getProp k = mo.getProp k := by
  simp [MO.getProp, MO.setProp, List.find?_cons, hne]

theorem getProp_set_prop_multiple (mo : MO) (kvs : List (String × Option String))
    (k : String) :
    (mo.set_prop_multiple kvs).getProp k =
      orElseProp (lastProvided kvs k) (mo.getProp k) := by
  induction kvs generalizing mo with
  | nil => simp [MO.set_prop_multiple, lastProvided, orElseProp]
  | cons kv rest ih =>
    have hstep : (mo.set_prop_multiple (kv :: rest)) =
        ((match kv.2 with
          | some v => mo.setProp kv.1 v
          | none => mo).set_prop_multiple rest) := by
      simp [MO.set_prop_multiple]
    rw [hstep, ih]
    cases hrest : lastProvided rest k with
    | some v => simp [lastProvided, hrest, orElseProp]
    | none =>
      cases hv : kv.2 with
      | none =>
        by_cases hk : kv.1 == k
        · simp [lastProvided, hrest, hk, hv, orElseProp]
        · simp [lastProvided, hrest, hk, hv, orElseProp]
      | some v =>
        by_cases hk : (kv.1 == k) = true
        · have hkk : kv.1 = k := by simpa using hk
          subst hkk
          simp [lastProvided, hrest, hv, orElseProp, getProp_setProp_self]
        · have hkk : kv.1 ≠ k := by simpa using hk
          simp [lastProvided, hrest, hk, hv, orElseProp,
            getProp_setProp_ne mo kv.1 v k hkk]

theorem find?_upsertByDn_self (l : List MO) (mo : MO) :
    (upsertByDn l mo).find? (fun m => m.dn == mo.dn) = some mo := by
  induction l with
  | nil => simp [upsertByDn, List.find?]
  | cons m ms ih =>
    by_cases hm : (m.dn == mo.dn) = true
    · simp [upsertByDn, hm, List.find?]
    · simp [upsertByDn, hm, List.find?, ih]

theorem countP_upsertByDn (l : List MO) (mo : MO) :
    (upsertByDn l mo).countP (fun m => m.dn == mo.dn) =
      max 1 (l.countP (fun m => m.dn == mo.dn)) := by
  induction l with
  | nil => simp [upsertByDn]
  | cons m ms ih =>
    by_cases hm : (m.dn == mo.dn) = true
    · simp [upsertByDn, hm, List.countP_cons]
    · simp [upsertByDn, hm, List.countP_cons, ih]

theorem find?_filter_dn_none (l : List MO) (d : String) :
    (l.filter (fun m => !(m.dn == d))).find? (fun m => m.dn == d) = none := by
  rw [List.find?_eq_none]
  intro m hm
  have := List.of_mem_filter hm
  simpa using this

theorem orElseProp_some (v : String) (b : Option String) :
    orElseProp (some v) b = some v := rfl

theorem orElseProp_none (b : Option String) : orElseProp none b = b := rfl

theorem orElseProp_none_right (a : Option String) : orElseProp a none = a := by
  cases a <;> rfl

theorem dn_set_prop_multiple (mo : MO) (kvs : List (String × Option String)) :
    (mo.set_prop_multiple kvs).dn = mo.dn := by
  induction kvs generalizing mo with
  | nil => rfl
  | cons kv rest ih =>
    have hstep : (mo.set_prop_multiple (kv :: rest)) =
        ((match kv.2 with
          | some v => mo.setProp kv.1 v
          | none => mo).set_prop_multiple rest) := by
      simp [MO.set_prop_multiple]
    rw [hstep, ih]
    cases kv.2 <;> rfl

theorem find?_upsertByDn (l : List MO) (mo : MO) (d : String) (hd : mo.dn = d) :
    (upsertByDn l mo).find? (fun m => m.dn == d) = some mo := by
  subst hd
  exact find?_upsertByDn_self l mo

theorem auth_domain_get_of_none (h : Handle) (name caller : String)
    (hq : h.query_dn ("sys/auth-realm/domain-" ++ name) = none) :
    auth_domain_get h name caller =
      (Except.error ⟨caller,
        "Auth Domain \x27sys/auth-realm/domain-" ++ name ++
          "\x27 does not exist"⟩, h) := by
  simp only [auth_domain_get, domainDn_eq, hq]
  rfl

theorem auth_domain_get_of_some (h : Handle) (name caller : String) (mo : MO)
    (hq : h.query_dn ("sys/auth-realm/domain-" ++ name) = some mo) :
    auth_domain_get h name caller = (Except.ok mo, h) := by
  simp only [auth_domain_get, domainDn_eq, hq]

theorem auth_domain_create_unfold (h : Handle) (name rp st : String)
    (descr : Option String) (kwargs : List (String × String)) :
    auth_domain_create h name rp st descr kwargs =
      (Except.ok ((AaaDomain _auth_realm_dn name rp st descr).set_prop_multiple
          (toProvided kwargs)),
       ⟨upsertByDn h.remote
          ((AaaDomain _auth_realm_dn name rp st descr).set_prop_multiple
            (toProvided kwargs)),
        (h.log ++ [HandleOp.add
          ((AaaDomain _auth_realm_dn name rp st descr).set_prop_multiple
            (toProvided kwargs)) true]) ++ [HandleOp.commit]⟩) := by
  simp [auth_domain_create, Handle.add_mo, Handle.commit]

/-! Claim theorems. -/

/-- C1: with no overrides, `auth_domain_create` constructs the Auth Domain
record at the deterministic path `sys/auth-realm/domain-<name>` with refresh
period "600" and session timeout "7200", submits it with
modify-if-already-present (upsert) semantics, commits, and returns the
record; `auth_domain_get` issued on the resulting handle returns that record
with both defaults preserved. -/
theorem auth_domain_create_then_get_defaults (h : Handle) (name : String) :
    ∃ mo,
      (auth_domain_create h name "600" "7200" none []).1 = Except.ok mo ∧
      mo.dn = "sys/auth-realm/domain-" ++ name ∧
      mo.getProp "refresh_period" = some "600" ∧
      mo.getProp "session_timeout" = some "7200" ∧
      (auth_domain_create h name "600" "7200" none []).2.log =
        h.log ++ [HandleOp.add mo true, HandleOp.commit] ∧
      (auth_domain_get (auth_domain_create h name "600" "7200" none []).2 name
          "auth_domain_get").1 = Except.ok mo := by
  have hnil : (AaaDomain _auth_realm_dn name "600" "7200" none).set_prop_multiple
      (toProvided []) = AaaDomain _auth_realm_dn name "600" "7200" none := rfl
  refine ⟨AaaDomain _auth_realm_dn name "600" "7200" none, ?_, rfl, rfl, rfl, ?_, ?_⟩
  · rw [auth_domain_create_unfold, hnil]
  · rw [auth_domain_create_unfold, hnil]
    simp [List.append_assoc]
  · rw [auth_domain_create_unfold, hnil]
    have hq : Handle.query_dn
        ⟨upsertByDn h.remote (AaaDomain _auth_realm_dn name "600" "7200" none),
         (h.log ++ [HandleOp.add (AaaDomain _auth_realm_dn name "600" "7200" none)
            true]) ++ [HandleOp.commit]⟩
        (_auth_realm_dn ++ "/domain-" ++ name) =
        some (AaaDomain _auth_realm_dn name "600" "7200" none) :=
      find?_upsertByDn h.remote _ _ rfl
    simp only [auth_domain_get, hq]

/-- C4: for every name with no record at the resolved path, `auth_domain_get`
raises `UcsOperationError` whose message carries the resolved path
`sys/auth-realm/domain-<name>` and whose operation name is the calling
operation's name, with no side effect on the handle; `auth_domain_exists`
then reports `(false, none)`. -/
theorem auth_domain_get_missing_raises (h : Handle) (name caller : String)
    (hq : h.query_dn ("sys/auth-realm/domain-" ++ name) = none) :
    auth_domain_get h name caller =
      (Except.error ⟨caller,
        "Auth Domain \x27sys/auth-realm/domain-" ++ name ++
          "\x27 does not exist"⟩, h) ∧
    auth_domain_exists h name [] = ((false, none), h) := by
  refine ⟨auth_domain_get_of_none h name caller hq, ?_⟩
  simp only [auth_domain_exists,
    auth_domain_get_of_none h name "auth_domain_exists" hq]

/-- Witness for C4 at the empty handle and name "d1". -/
theorem auth_domain_get_missing_raises_witness :
    (Handle.mk [] []).query_dn ("sys/auth-realm/domain-" ++ "d1") = none ∧
    (auth_domain_get (Handle.mk [] []) "d1" "auth_domain_get" =
      (Except.error ⟨"auth_domain_get",
        "Auth Domain \x27sys/auth-realm/domain-" ++ "d1" ++
          "\x27 does not exist"⟩, Handle.mk [] []) ∧
     auth_domain_exists (Handle.mk [] []) "d1" [] =
       ((false, none), Handle.mk [] [])) :=
  ⟨rfl, auth_domain_get_missing_raises (Handle.mk [] []) "d1" "auth_domain_get" rfl⟩

/-- C7: when the parent Auth Domain is absent, `auth_domain_realm_configure`
raises `UcsOperationError` and returns the handle completely unchanged: no
child realm-binding record is constructed or submitted and nothing is
committed. -/
theorem auth_domain_realm_configure_missing_parent (h : Handle)
    (domain_name realm : String) (use2_factor : Bool)
    (provider_group name descr : Option String)
    (kwargs : List (String × String))
    (hq : h.query_dn ("sys/auth-realm/domain-" ++ domain_name) = none) :
    auth_domain_realm_configure h domain_name realm use2_factor provider_group
        name descr kwargs =
      (Except.error ⟨"auth_domain_realm_configure",
        "Auth Domain \x27sys/auth-realm/domain-" ++ domain_name ++
          "\x27 does not exist"⟩, h) := by
  simp only [auth_domain_realm_configure,
    auth_domain_get_of_none h domain_name "auth_domain_realm_configure" hq]

/-- Witness for C7 at the empty handle and domain name "missing-domain". -/
theorem auth_domain_realm_configure_missing_parent_witness :
    (Handle.mk [] []).query_dn ("sys/auth-realm/domain-" ++ "missing-domain") =
      none ∧
    auth_domain_realm_configure (Handle.mk [] []) "missing-domain" "local" false
        none none none [] =
      (Except.error ⟨"auth_domain_realm_configure",
        "Auth Domain \x27sys/auth-realm/domain-" ++ "missing-domain" ++
          "\x27 does not exist"⟩, Handle.mk [] []) :=
  ⟨rfl, auth_domain_realm_configure_missing_parent (Handle.mk [] [])
    "missing-domain" "local" false none none none [] rfl⟩

/-- C3: `auth_domain_modify` requires an existing record: when no record is
at the resolved path it raises `UcsOperationError` (via the lookup) and
leaves the handle completely unchanged (no record is created); when the
record exists it applies the extra properties onto the fetched record,
submits an update, commits, and returns the updated record. -/
theorem auth_domain_modify_requires_existing (h : Handle) (name : String)
    (kwargs : List (String × String)) :
    (h.query_dn ("sys/auth-realm/domain-" ++ name) = none →
      auth_domain_modify h name kwargs =
        (Except.error ⟨"auth_domain_modify",
          "Auth Domain \x27sys/auth-realm/domain-" ++ name ++
            "\x27 does not exist"⟩, h)) ∧
    (∀ mo, h.query_dn ("sys/auth-realm/domain-" ++ name) = some mo →
      ∃ mo2, (auth_domain_modify h name kwargs).1 = Except.ok mo2 ∧
        (∀ k v, lookupLast kwargs k = some v → mo2.getProp k = some v) ∧
        (∀ k, lookupLast kwargs k = none → mo2.getProp k = mo.getProp k) ∧
        (auth_domain_modify h name kwargs).2.remote = upsertByDn h.remote mo2 ∧
        (auth_domain_modify h name kwargs).2.log =
          h.log ++ [HandleOp.set mo2, HandleOp.commit]) := by
  constructor
  · intro hq
    simp only [auth_domain_modify,
      auth_domain_get_of_none h name "auth_domain_modify" hq]
  · intro mo hq
    refine ⟨mo.set_prop_multiple (toProvided kwargs), ?_, ?_, ?_, ?_, ?_⟩
    · simp only [auth_domain_modify,
        auth_domain_get_of_some h name "auth_domain_modify" mo hq]
    · intro k v hk
      rw [getProp_set_prop_multiple]
      have hk2 : lastProvided (toProvided kwargs) k = some v := hk
      rw [hk2, orElseProp_some]
    · intro k hk
      rw [getProp_set_prop_multiple]
      have hk2 : lastProvided (toProvided kwargs) k = none := hk
      rw [hk2, orElseProp_none]
    · simp [auth_domain_modify,
        auth_domain_get_of_some h name "auth_domain_modify" mo hq,
        Handle.set_mo, Handle.commit]
    · simp [auth_domain_modify,
        auth_domain_get_of_some h name "auth_domain_modify" mo hq,
        Handle.set_mo, Handle.commit, List.append_assoc]

/-- Witness for C3: the missing case at the empty handle, and the present
case at a handle holding one domain record. -/
theorem auth_domain_modify_requires_existing_witness :
    (Handle.mk [] []).query_dn ("sys/auth-realm/domain-" ++ "missing-domain") =
      none ∧
    (Handle.mk [MO.mk "AaaDomain" ("sys/auth-realm/domain-" ++ "d1")
        [("name", "d1")]] []).query_dn ("sys/auth-realm/domain-" ++ "d1") =
      some (MO.mk "AaaDomain" ("sys/auth-realm/domain-" ++ "d1")
        [("name", "d1")]) ∧
    (auth_domain_modify (Handle.mk [] []) "missing-domain"
        [("session_timeout", "1000")] =
      (Except.error ⟨"auth_domain_modify",
        "Auth Domain \x27sys/auth-realm/domain-" ++ "missing-domain" ++
          "\x27 does not exist"⟩, Handle.mk [] [])) ∧
    (∃ mo2, (auth_domain_modify
        (Handle.mk [MO.mk "AaaDomain" ("sys/auth-realm/domain-" ++ "d1")
          [("name", "d1")]] []) "d1" [("session_timeout", "1000")]).1 =
          Except.ok mo2 ∧
      (∀ k v, lookupLast [("session_timeout", "1000")] k = some v →
        mo2.getProp k = some v) ∧
      (∀ k, lookupLast [("session_timeout", "1000")] k = none →
        mo2.getProp k = (MO.mk "AaaDomain" ("sys/auth-realm/domain-" ++ "d1")
          [("name", "d1")]).getProp k) ∧
      (auth_domain_modify
        (Handle.mk [MO.mk "AaaDomain" ("sys/auth-realm/domain-" ++ "d1")
          [("name", "d1")]] []) "d1" [("session_timeout", "1000")]).2.remote =
        upsertByDn [MO.mk "AaaDomain" ("sys/auth-realm/domain-" ++ "d1")
          [("name", "d1")]] mo2 ∧
      (auth_domain_modify
        (Handle.mk [MO.mk "AaaDomain" ("sys/auth-realm/domain-" ++ "d1")
          [("name", "d1")]] []) "d1" [("session_timeout", "1000")]).2.log =
        [] ++ [HandleOp.set mo2, HandleOp.commit]) :=
  ⟨rfl, rfl,
   (auth_domain_modify_requires_existing (Handle.mk [] []) "missing-domain"
     [("session_timeout", "1000")]).1 rfl,
   (auth_domain_modify_requires_existing
     (Handle.mk [MO.mk "AaaDomain" ("sys/auth-realm/domain-" ++ "d1")
       [("name", "d1")]] []) "d1" [("session_timeout", "1000")]).2
     (MO.mk "AaaDomain" ("sys/auth-realm/domain-" ++ "d1") [("name", "d1")])
     rfl⟩

/-- C5: `auth_domain_exists` is a read-only predicate: it never touches the
handle, returns `(true, record)` exactly when a record exists at the
resolved path and every expected property matches it, and returns
`(false, none)` both when the record is absent (the not-found error is
caught) and when some listed field differs. -/
theorem auth_domain_exists_readonly_predicate (h : Handle) (name : String)
    (kwargs : List (String × String)) :
    (auth_domain_exists h name kwargs).2 = h ∧
    ((auth_domain_exists h name kwargs).1.1 = true ↔
      ∃ mo, h.query_dn ("sys/auth-realm/domain-" ++ name) = some mo ∧
        mo.check_prop_match kwargs = true) ∧
    (∀ mo, h.query_dn ("sys/auth-realm/domain-" ++ name) = some mo →
      mo.check_prop_match kwargs = true →
      (auth_domain_exists h name kwargs).1 = (true, some mo)) ∧
    (∀ mo, h.query_dn ("sys/auth-realm/domain-" ++ name) = some mo →
      mo.check_prop_match kwargs = false →
      (auth_domain_exists h name kwargs).1 = (false, none)) ∧
    (h.query_dn ("sys/auth-realm/domain-" ++ name) = none →
      (auth_domain_exists h name kwargs).1 = (false, none)) := by
  refine ⟨?_, ?_, ?_, ?_, ?_⟩
  · cases hq : h.query_dn ("sys/auth-realm/domain-" ++ name) with
    | none =>
      simp only [auth_domain_exists,
        auth_domain_get_of_none h name "auth_domain_exists" hq]
    | some mo =>
      simp only [auth_domain_exists,
        auth_domain_get_of_some h name "auth_domain_exists" mo hq]
  · cases hq : h.query_dn ("sys/auth-realm/domain-" ++ name) with
    | none =>
      simp only [auth_domain_exists,
        auth_domain_get_of_none h name "auth_domain_exists" hq]
      simp
    | some mo =>
      simp only [auth_domain_exists,
        auth_domain_get_of_some h name "auth_domain_exists" mo hq]
      simp
  · intro mo2 hmo2 hc
    simp only [auth_domain_exists,
      auth_domain_get_of_some h name "auth_domain_exists" mo2 hmo2]
    simp [hc]
  · intro mo2 hmo2 hc
    simp only [auth_domain_exists,
      auth_domain_get_of_some h name "auth_domain_exists" mo2 hmo2]
    simp [hc]
  · intro hq
    simp only [auth_domain_exists,
      auth_domain_get_of_none h name "auth_domain_exists" hq]

/-- Witness for C5: the matching, mismatching and absent cases at concrete
handles. -/
theorem auth_domain_exists_readonly_predicate_witness :
    (auth_domain_exists (Handle.mk [MO.mk "AaaDomain"
        ("sys/auth-realm/domain-" ++ "d1") [("session_timeout", "1000")]] [])
        "d1" [("session_timeout", "1000")]).2 =
      Handle.mk [MO.mk "AaaDomain" ("sys/auth-realm/domain-" ++ "d1")
        [("session_timeout", "1000")]] [] ∧
    (auth_domain_exists (Handle.mk [MO.mk "AaaDomain"
        ("sys/auth-realm/domain-" ++ "d1") [("session_timeout", "1000")]] [])
        "d1" [("session_timeout", "1000")]).1 =
      (true, some (MO.mk "AaaDomain" ("sys/auth-realm/domain-" ++ "d1")
        [("session_timeout", "1000")])) ∧
    (auth_domain_exists (Handle.mk [MO.mk "AaaDomain"
        ("sys/auth-realm/domain-" ++ "d1") [("session_timeout", "999")]] [])
        "d1" [("session_timeout", "1000")]).1 = (false, none) ∧
    (auth_domain_exists (Handle.mk [] []) "d1"
        [("session_timeout", "1000")]).1 = (false, none) :=
  ⟨(auth_domain_exists_readonly_predicate (Handle.mk [MO.mk "AaaDomain"
      ("sys/auth-realm/domain-" ++ "d1") [("session_timeout", "1000")]] [])
      "d1" [("session_timeout", "1000")]).1,
   (auth_domain_exists_readonly_predicate (Handle.mk [MO.mk "AaaDomain"
      ("sys/auth-realm/domain-" ++ "d1") [("session_timeout", "1000")]] [])
      "d1" [("session_timeout", "1000")]).2.2.1
     (MO.mk "AaaDomain" ("sys/auth-realm/domain-" ++ "d1")
       [("session_timeout", "1000")]) rfl rfl,
   (auth_domain_exists_readonly_predicate (Handle.mk [MO.mk "AaaDomain"
      ("sys/auth-realm/domain-" ++ "d1") [("session_timeout", "999")]] [])
      "d1" [("session_timeout", "1000")]).2.2.2.1
     (MO.mk "AaaDomain" ("sys/auth-realm/domain-" ++ "d1")
       [("session_timeout", "999")]) rfl rfl,
   (auth_domain_exists_readonly_predicate (Handle.mk [] []) "d1"
      [("session_timeout", "1000")]).2.2.2.2 rfl⟩

/-- C6: `auth_domain_delete` raises `UcsOperationError` when no record exists
at the resolved path; when the record exists it removes it, commits and
returns unit, so a subsequent `auth_domain_get` on the same name raises the
not-found error. -/
theorem auth_domain_delete_then_get_missing (h : Handle) (name : String) :
    (h.query_dn ("sys/auth-realm/domain-" ++ name) = none →
      auth_domain_delete h name =
        (Except.error ⟨"auth_domain_delete",
          "Auth Domain \x27sys/auth-realm/domain-" ++ name ++
            "\x27 does not exist"⟩, h)) ∧
    (∀ mo, h.query_dn ("sys/auth-realm/domain-" ++ name) = some mo →
      (auth_domain_delete h name).1 = Except.ok () ∧
      (auth_domain_delete h name).2.query_dn
        ("sys/auth-realm/domain-" ++ name) = none ∧
      (auth_domain_get (auth_domain_delete h name).2 name "auth_domain_get").1 =
        Except.error ⟨"auth_domain_get",
          "Auth Domain \x27sys/auth-realm/domain-" ++ name ++
            "\x27 does not exist"⟩ ∧
      (auth_domain_delete h name).2.log =
        h.log ++ [HandleOp.remove mo, HandleOp.commit]) := by
  constructor
  · intro hq
    simp only [auth_domain_delete,
      auth_domain_get_of_none h name "auth_domain_delete" hq]
  · intro mo hq
    have hmo_dn : mo.dn = "sys/auth-realm/domain-" ++ name := by
      have h1 : List.find? (fun m => m.dn == ("sys/auth-realm/domain-" ++ name))
          h.remote = some mo := hq
      have h2 := List.find?_some h1
      simpa using h2
    have hqafter : (auth_domain_delete h name).2.query_dn
        ("sys/auth-realm/domain-" ++ name) = none := by
      simp only [auth_domain_delete,
        auth_domain_get_of_some h name "auth_domain_delete" mo hq,
        Handle.remove_mo, Handle.commit, Handle.query_dn]
      rw [← hmo_dn]
      exact find?_filter_dn_none h.remote mo.dn
    refine ⟨?_, hqafter, ?_, ?_⟩
    · simp only [auth_domain_delete,
        auth_domain_get_of_some h name "auth_domain_delete" mo hq]
    · rw [auth_domain_get_of_none _ name "auth_domain_get" hqafter]
    · simp [auth_domain_delete,
        auth_domain_get_of_some h name "auth_domain_delete" mo hq,
        Handle.remove_mo, Handle.commit, List.append_assoc]

/-- Witness for C6: the missing case at the empty handle and the present
case at a handle holding one domain record. -/
theorem auth_domain_delete_then_get_missing_witness :
    (Handle.mk [] []).query_dn ("sys/auth-realm/domain-" ++ "d1") = none ∧
    (Handle.mk [MO.mk "AaaDomain" ("sys/auth-realm/domain-" ++ "d1")
        [("name", "d1")]] []).query_dn ("sys/auth-realm/domain-" ++ "d1") =
      some (MO.mk "AaaDomain" ("sys/auth-realm/domain-" ++ "d1")
        [("name", "d1")]) ∧
    (auth_domain_delete (Handle.mk [] []) "d1" =
      (Except.error ⟨"auth_domain_delete",
        "Auth Domain \x27sys/auth-realm/domain-" ++ "d1" ++
          "\x27 does not exist"⟩, Handle.mk [] [])) ∧
    ((auth_domain_delete (Handle.mk [MO.mk "AaaDomain"
        ("sys/auth-realm/domain-" ++ "d1") [("name", "d1")]] []) "d1").1 =
      Except.ok () ∧
     (auth_domain_delete (Handle.mk [MO.mk "AaaDomain"
        ("sys/auth-realm/domain-" ++ "d1") [("name", "d1")]] []) "d1").2.query_dn
        ("sys/auth-realm/domain-" ++ "d1") = none ∧
     (auth_domain_get (auth_domain_delete (Handle.mk [MO.mk "AaaDomain"
        ("sys/auth-realm/domain-" ++ "d1") [("name", "d1")]] []) "d1").2 "d1"
        "auth_domain_get").1 =
       Except.error ⟨"auth_domain_get",
         "Auth Domain \x27sys/auth-realm/domain-" ++ "d1" ++
           "\x27 does not exist"⟩ ∧
     (auth_domain_delete (Handle.mk [MO.mk "AaaDomain"
        ("sys/auth-realm/domain-" ++ "d1") [("name", "d1")]] []) "d1").2.log =
       [] ++ [HandleOp.remove (MO.mk "AaaDomain"
         ("sys/auth-realm/domain-" ++ "d1") [("name", "d1")]),
         HandleOp.commit]) :=
  ⟨rfl, rfl,
   (auth_domain_delete_then_get_missing (Handle.mk [] []) "d1").1 rfl,
   (auth_domain_delete_then_get_missing (Handle.mk [MO.mk "AaaDomain"
      ("sys/auth-realm/domain-" ++ "d1") [("name", "d1")]] []) "d1").2
     (MO.mk "AaaDomain" ("sys/auth-realm/domain-" ++ "d1") [("name", "d1")])
     rfl⟩

/-- C2: `auth_domain_create` is an idempotent upsert: calling it twice with a
session timeout of "1000" leaves exactly one record at the resolved path,
that record's session timeout is "1000", and neither call errors (the second
overwrites rather than duplicating). -/
theorem auth_domain_create_upsert_idempotent (h : Handle) (name : String)
    (hcount : h.remote.countP
      (fun m => m.dn == ("sys/auth-realm/domain-" ++ name)) ≤ 1) :
    ∃ mo,
      (auth_domain_create h name "600" "1000" none []).1 = Except.ok mo ∧
      (auth_domain_create (auth_domain_create h name "600" "1000" none []).2
          name "600" "1000" none []).1 = Except.ok mo ∧
      (auth_domain_create (auth_domain_create h name "600" "1000" none []).2
          name "600" "1000" none []).2.remote.countP
        (fun m => m.dn == ("sys/auth-realm/domain-" ++ name)) = 1 ∧
      (auth_domain_create (auth_domain_create h name "600" "1000" none []).2
          name "600" "1000" none []).2.query_dn
        ("sys/auth-realm/domain-" ++ name) = some mo ∧
      mo.getProp "session_timeout" = some "1000" := by
  have hnil : (AaaDomain _auth_realm_dn name "600" "1000" none).set_prop_multiple
      (toProvided []) = AaaDomain _auth_realm_dn name "600" "1000" none := rfl
  have e1 : auth_domain_create h name "600" "1000" none [] =
      (Except.ok (AaaDomain _auth_realm_dn name "600" "1000" none),
       ⟨upsertByDn h.remote (AaaDomain _auth_realm_dn name "600" "1000" none),
        (h.log ++ [HandleOp.add (AaaDomain _auth_realm_dn name "600" "1000" none)
          true]) ++ [HandleOp.commit]⟩) := by
    rw [auth_domain_create_unfold, hnil]
  have e2 : auth_domain_create (auth_domain_create h name "600" "1000" none []).2
      name "600" "1000" none [] =
      (Except.ok (AaaDomain _auth_realm_dn name "600" "1000" none),
       ⟨upsertByDn
          (upsertByDn h.remote (AaaDomain _auth_realm_dn name "600" "1000" none))
          (AaaDomain _auth_realm_dn name "600" "1000" none),
        ((((h.log ++ [HandleOp.add
            (AaaDomain _auth_realm_dn name "600" "1000" none) true]) ++
          [HandleOp.commit]) ++ [HandleOp.add
            (AaaDomain _auth_realm_dn name "600" "1000" none) true]) ++
          [HandleOp.commit])⟩) := by
    rw [e1, auth_domain_create_unfold, hnil]
  refine ⟨AaaDomain _auth_realm_dn name "600" "1000" none, ?_, ?_, ?_, ?_, rfl⟩
  · rw [e1]
  · rw [e2]
  · rw [e2]
    show (upsertByDn
        (upsertByDn h.remote (AaaDomain _auth_realm_dn name "600" "1000" none))
        (AaaDomain _auth_realm_dn name "600" "1000" none)).countP
      (fun m => m.dn == ("sys/auth-realm/domain-" ++ name)) = 1
    rw [show ("sys/auth-realm/domain-" ++ name) =
      (AaaDomain _auth_realm_dn name "600" "1000" none).dn from rfl]
    rw [countP_upsertByDn, countP_upsertByDn]
    have hcount2 : h.remote.countP
        (fun m => m.dn == (AaaDomain _auth_realm_dn name "600" "1000" none).dn)
        ≤ 1 := hcount
    rcases Nat.le_one_iff_eq_zero_or_eq_one.mp hcount2 with hc0 | hc1
    · rw [hc0]
      decide
    · rw [hc1]
      decide
  · rw [e2]
    exact find?_upsertByDn
      (upsertByDn h.remote (AaaDomain _auth_realm_dn name "600" "1000" none))
      (AaaDomain _auth_realm_dn name "600" "1000" none) _ rfl

/-- Witness for C2 at the empty handle and name "d1". -/
theorem auth_domain_create_upsert_idempotent_witness :
    (Handle.mk [] []).remote.countP
      (fun m => m.dn == ("sys/auth-realm/domain-" ++ "d1")) ≤ 1 ∧
    ∃ mo,
      (auth_domain_create (Handle.mk [] []) "d1" "600" "1000" none []).1 =
        Except.ok mo ∧
      (auth_domain_create
          (auth_domain_create (Handle.mk [] []) "d1" "600" "1000" none []).2
          "d1" "600" "1000" none []).1 = Except.ok mo ∧
      (auth_domain_create
          (auth_domain_create (Handle.mk [] []) "d1" "600" "1000" none []).2
          "d1" "600" "1000" none []).2.remote.countP
        (fun m => m.dn == ("sys/auth-realm/domain-" ++ "d1")) = 1 ∧
      (auth_domain_create
          (auth_domain_create (Handle.mk [] []) "d1" "600" "1000" none []).2
          "d1" "600" "1000" none []).2.query_dn
        ("sys/auth-realm/domain-" ++ "d1") = some mo ∧
      mo.getProp "session_timeout" = some "1000" :=
  ⟨by decide,
   auth_domain_create_upsert_idempotent (Handle.mk [] []) "d1" (by decide)⟩

/-- C8: when the parent domain exists, `auth_domain_realm_configure` maps the
boolean two-factor argument to the enumerated string in the submitted
record: `true` yields the literal "yes" and `false` yields "no" (the record
holds the string, never the boolean). -/
theorem auth_domain_realm_configure_two_factor_mapping (h : Handle)
    (domain_name realm : String) (b : Bool)
    (provider_group name descr : Option String)
    (kwargs : List (String × String)) (mo : MO)
    (hq : h.query_dn ("sys/auth-realm/domain-" ++ domain_name) = some mo)
    (hk : lookupLast kwargs "use2_factor" = none) :
    ∃ mo2,
      (auth_domain_realm_configure h domain_name realm b provider_group name
          descr kwargs).1 = Except.ok mo2 ∧
      mo2.getProp "use2_factor" = some (if b then "yes" else "no") ∧
      (auth_domain_realm_configure h domain_name realm b provider_group name
          descr kwargs).2.log =
        h.log ++ [HandleOp.set mo2, HandleOp.commit] := by
  refine ⟨(AaaDomainAuth mo.dn realm (if b then "yes" else "no") provider_group
      name descr).set_prop_multiple (toProvided kwargs), ?_, ?_, ?_⟩
  · simp only [auth_domain_realm_configure,
      auth_domain_get_of_some h domain_name "auth_domain_realm_configure" mo hq]
  · rw [getProp_set_prop_multiple]
    have hk2 : lastProvided (toProvided kwargs) "use2_factor" = none := hk
    rw [hk2, orElseProp_none]
    simp only [AaaDomainAuth]
    rw [getProp_set_prop_multiple]
    rfl
  · simp [auth_domain_realm_configure,
      auth_domain_get_of_some h domain_name "auth_domain_realm_configure" mo hq,
      Handle.set_mo, Handle.commit, List.append_assoc]

/-- Witness for C8 at a handle holding one parent domain, with both values
of the two-factor flag. -/
theorem auth_domain_realm_configure_two_factor_mapping_witness :
    (Handle.mk [MO.mk "AaaDomain" ("sys/auth-realm/domain-" ++ "d1")
        [("name", "d1")]] []).query_dn ("sys/auth-realm/domain-" ++ "d1") =
      some (MO.mk "AaaDomain" ("sys/auth-realm/domain-" ++ "d1")
        [("name", "d1")]) ∧
    lookupLast [] "use2_factor" = none ∧
    (∃ mo2,
      (auth_domain_realm_configure (Handle.mk [MO.mk "AaaDomain"
          ("sys/auth-realm/domain-" ++ "d1") [("name", "d1")]] []) "d1" "ldap"
          true none none none []).1 = Except.ok mo2 ∧
      mo2.getProp "use2_factor" = some "yes" ∧
      (auth_domain_realm_configure (Handle.mk [MO.mk "AaaDomain"
          ("sys/auth-realm/domain-" ++ "d1") [("name", "d1")]] []) "d1" "ldap"
          true none none none []).2.log =
        [] ++ [HandleOp.set mo2, HandleOp.commit]) ∧
    (∃ mo2,
      (auth_domain_realm_configure (Handle.mk [MO.mk "AaaDomain"
          ("sys/auth-realm/domain-" ++ "d1") [("name", "d1")]] []) "d1" "ldap"
          false none none none []).1 = Except.ok mo2 ∧
      mo2.getProp "use2_factor" = some "no" ∧
      (auth_domain_realm_configure (Handle.mk [MO.mk "AaaDomain"
          ("sys/auth-realm/domain-" ++ "d1") [("name", "d1")]] []) "d1" "ldap"
          false none none none []).2.log =
        [] ++ [HandleOp.set mo2, HandleOp.commit]) :=
  ⟨rfl, rfl,
   auth_domain_realm_configure_two_factor_mapping
     (Handle.mk [MO.mk "AaaDomain" ("sys/auth-realm/domain-" ++ "d1")
       [("name", "d1")]] []) "d1" "ldap" true none none none []
     (MO.mk "AaaDomain" ("sys/auth-realm/domain-" ++ "d1") [("name", "d1")])
     rfl rfl,
   auth_domain_realm_configure_two_factor_mapping
     (Handle.mk [MO.mk "AaaDomain" ("sys/auth-realm/domain-" ++ "d1")
       [("name", "d1")]] []) "d1" "ldap" false none none none []
     (MO.mk "AaaDomain" ("sys/auth-realm/domain-" ++ "d1") [("name", "d1")])
     rfl rfl⟩

/-- C9: `native_auth_configure` is an unconditional upsert at the fixed path
under `sys`: the built record does not depend on the handle at all (no prior
existence lookup, no not-found error of its own), each named field reads as
the provided value unless the extension map overrides it, an absent (`none`)
field is left at the record's default, and the record is submitted as an
update and committed. -/
theorem native_auth_configure_upsert_fields (h : Handle)
    (def_role_policy def_login con_login descr : Option String)
    (kwargs : List (String × String)) :
    (native_auth_configure h def_role_policy def_login con_login descr
        kwargs).1.dn = "sys/auth-realm" ∧
    (∀ h2 : Handle,
      (native_auth_configure h2 def_role_policy def_login con_login descr
          kwargs).1 =
        (native_auth_configure h def_role_policy def_login con_login descr
          kwargs).1) ∧
    (native_auth_configure h def_role_policy def_login con_login descr
        kwargs).1.getProp "def_role_policy" =
      orElseProp (lookupLast kwargs "def_role_policy") def_role_policy ∧
    (native_auth_configure h def_role_policy def_login con_login descr
        kwargs).1.getProp "def_login" =
      orElseProp (lookupLast kwargs "def_login") def_login ∧
    (native_auth_configure h def_role_policy def_login con_login descr
        kwargs).1.getProp "con_login" =
      orElseProp (lookupLast kwargs "con_login") con_login ∧
    (native_auth_configure h def_role_policy def_login con_login descr
        kwargs).1.getProp "descr" =
      orElseProp (lookupLast kwargs "descr") descr ∧
    (native_auth_configure h def_role_policy def_login con_login descr
        kwargs).2.remote =
      upsertByDn h.remote
        (native_auth_configure h def_role_policy def_login con_login descr
          kwargs).1 ∧
    (native_auth_configure h def_role_policy def_login con_login descr
        kwargs).2.log =
      h.log ++ [HandleOp.set
        (native_auth_configure h def_role_policy def_login con_login descr
          kwargs).1, HandleOp.commit] := by
  refine ⟨?_, ?_, ?_, ?_, ?_, ?_, ?_, ?_⟩
  · simp only [native_auth_configure]
    rw [dn_set_prop_multiple, dn_set_prop_multiple]
    rfl
  · intro h2
    rfl
  · simp only [native_auth_configure]
    rw [getProp_set_prop_multiple, getProp_set_prop_multiple]
    cases def_role_policy with
    | none => rfl
    | some v => rfl
  · simp only [native_auth_configure]
    rw [getProp_set_prop_multiple, getProp_set_prop_multiple]
    cases def_login with
    | none => rfl
    | some v => rfl
  · simp only [native_auth_configure]
    rw [getProp_set_prop_multiple, getProp_set_prop_multiple]
    cases con_login with
    | none => rfl
    | some v => rfl
  · simp only [native_auth_configure]
    rw [getProp_set_prop_multiple, getProp_set_prop_multiple]
    cases descr with
    | none => rfl
    | some v => rfl
  · simp [native_auth_configure, Handle.set_mo, Handle.commit]
  · simp [native_auth_configure, Handle.set_mo, Handle.commit,
      List.append_assoc]

/-- C10: in every mutating operation of the façade, the open-ended extension
map is applied after the named parameters, so whenever the extension map
provides a value for a key, the submitted record holds the extension map's
value, even when that key names a field the named parameters already set. -/
theorem extension_map_wins_collisions (k v : String)
    (kwargs : List (String × String)) (hk : lookupLast kwargs k = some v) :
    (∀ h name refresh_period session_timeout descr,
      ∃ mo, (auth_domain_create h name refresh_period session_timeout descr
          kwargs).1 = Except.ok mo ∧ mo.getProp k = some v) ∧
    (∀ h name mo2, (auth_domain_modify h name kwargs).1 = Except.ok mo2 →
      mo2.getProp k = some v) ∧
    (∀ h domain_name realm use2_factor provider_group name descr mo2,
      (auth_domain_realm_configure h domain_name realm use2_factor
          provider_group name descr kwargs).1 = Except.ok mo2 →
      mo2.getProp k = some v) ∧
    (∀ h def_role_policy def_login con_login descr,
      (native_auth_configure h def_role_policy def_login con_login descr
          kwargs).1.getProp k = some v) ∧
    (∀ h realm session_timeout refresh_period provider_group name descr,
      (native_auth_default h realm session_timeout refresh_period
          provider_group name descr kwargs).1.getProp k = some v) ∧
    (∀ h realm provider_group name descr,
      (native_auth_console h realm provider_group name descr kwargs).1.getProp
        k = some v) := by
  have hk2 : lastProvided (toProvided kwargs) k = some v := hk
  refine ⟨?_, ?_, ?_, ?_, ?_, ?_⟩
  · intro h name rp st d
    refine ⟨(AaaDomain _auth_realm_dn name rp st d).set_prop_multiple
        (toProvided kwargs), ?_, ?_⟩
    · rw [auth_domain_create_unfold]
    · rw [getProp_set_prop_multiple, hk2, orElseProp_some]
  · intro h name mo2 hok
    cases hq : h.query_dn ("sys/auth-realm/domain-" ++ name) with
    | none =>
      simp only [auth_domain_modify,
        auth_domain_get_of_none h name "auth_domain_modify" hq] at hok
      exact absurd hok (by simp)
    | some mo =>
      simp only [auth_domain_modify,
        auth_domain_get_of_some h name "auth_domain_modify" mo hq] at hok
      injection hok with he
      rw [← he, getProp_set_prop_multiple, hk2, orElseProp_some]
  · intro h domain_name realm use2_factor provider_group name descr mo2 hok
    cases hq : h.query_dn ("sys/auth-realm/domain-" ++ domain_name) with
    | none =>
      simp only [auth_domain_realm_configure,
        auth_domain_get_of_none h domain_name "auth_domain_realm_configure"
          hq] at hok
      exact absurd hok (by simp)
    | some mo =>
      simp only [auth_domain_realm_configure,
        auth_domain_get_of_some h domain_name "auth_domain_realm_configure"
          mo hq] at hok
      injection hok with he
      rw [← he, getProp_set_prop_multiple, hk2, orElseProp_some]
  · intro h def_role_policy def_login con_login descr
    simp only [native_auth_configure]
    rw [getProp_set_prop_multiple, hk2, orElseProp_some]
  · intro h realm session_timeout refresh_period provider_group name descr
    simp only [native_auth_default]
    rw [getProp_set_prop_multiple, hk2, orElseProp_some]
  · intro h realm provider_group name descr
    simp only [native_auth_console]
    rw [getProp_set_prop_multiple, hk2, orElseProp_some]

/-- Witness for C10: the extension map sets "refresh_period", a key that the
named parameters of `auth_domain_create` also set, and the extension map's
value wins in the created, modified and native-auth records. -/
theorem extension_map_wins_collisions_witness :
    lookupLast [("refresh_period", "100")] "refresh_period" = some "100" ∧
    (∃ mo, (auth_domain_create (Handle.mk [] []) "d1" "600" "7200" none
        [("refresh_period", "100")]).1 = Except.ok mo ∧
      mo.getProp "refresh_period" = some "100") ∧
    ((MO.mk "AaaDomain" ("sys/auth-realm/domain-" ++ "d1")
        [("name", "d1")]).set_prop_multiple
      (toProvided [("refresh_period", "100")])).getProp "refresh_period" =
      some "100" ∧
    (native_auth_configure (Handle.mk [] []) none none none none
        [("refresh_period", "100")]).1.getProp "refresh_period" = some "100" :=
  ⟨rfl,
   (extension_map_wins_collisions "refresh_period" "100"
     [("refresh_period", "100")] rfl).1 (Handle.mk [] []) "d1" "600" "7200"
     none,
   (extension_map_wins_collisions "refresh_period" "100"
     [("refresh_period", "100")] rfl).2.1
     (Handle.mk [MO.mk "AaaDomain" ("sys/auth-realm/domain-" ++ "d1")
       [("name", "d1")]] []) "d1"
     ((MO.mk "AaaDomain" ("sys/auth-realm/domain-" ++ "d1")
       [("name", "d1")]).set_prop_multiple
       (toProvided [("refresh_period", "100")])) rfl,
   (extension_map_wins_collisions "refresh_period" "100"
     [("refresh_period", "100")] rfl).2.2.2.1 (Handle.mk [] []) none none none
     none⟩
